import Mathlib

/-!
Verification of the MomentCast watch-page playback state machine.

This file is a shallow embedding of `src/watch-page/script.js`: the Mode
Resolver (`determinePlaybackMode`), the limit-exceeded gate of `updateUI`,
the polling cadence of `startPolling`, the renderers
`showSequentialPlayback` / `showLastRecording`, and the sequential-advance
machinery (`setupSequentialAdvance` / `advanceToNextRecording`).

Timestamps are modelled as integers (milliseconds since epoch, matching the
JavaScript `Date` arithmetic); player positions and durations are rationals
(JavaScript numbers in seconds).  Playback modes, string-valued in the
source, form a closed set and are modelled as an inductive type.
-/

namespace MomentCast

/-- A recording object as the watch page reads it: an opaque `uid`, a
`created` timestamp (ms), an optional `duration` in seconds (absent or zero
must be tolerated), and the `readyToStream` flag. -/
structure Recording where
  uid : String
  created : Int
  duration : Option ℚ
  readyToStream : Bool
deriving Repr, DecidableEq

/-- The fields of the polled event snapshot that `script.js` reads. -/
structure EventSnapshot where
  status : String
  stream_state : String
  scheduled_date : Int
  last_stream_activity : Option Int
  recordings : List Recording
  limitExceeded : Bool
deriving Repr, DecidableEq

/-- The playback modes produced by `determinePlaybackMode` plus the
`LIMIT_EXCEEDED` screen selected by `updateUI`. -/
inductive Mode where
  | LIVE
  | PROCESSING
  | LAST_RECORDING
  | SEQUENTIAL
  | COUNTDOWN
  | ENDED
  | WAITING
  | LIMIT_EXCEEDED
deriving Repr, DecidableEq

/-- Mode Resolver, translated from `determinePlaybackMode`
(script.js lines 78-140).  The source first returns `WAITING` when
`eventData` is null; that guard is `determinePlaybackModeOpt` below, and this
function is the body for a non-null snapshot.  `now - last_stream_activity`
is the millisecond difference the source computes with `Date` subtraction;
`7200000` is the source's `2 * 60 * 60 * 1000` two-hour threshold and
`600000` its `10 * 60 * 1000` ten-minute threshold. -/
def determinePlaybackMode (eventData : EventSnapshot) (now : Int) : Mode :=
  let scheduledDate := eventData.scheduled_date
  let isLive := eventData.status == "live" && eventData.stream_state == "active"
  let isEnded := eventData.status == "ended"
  let hasRecordings := decide (0 < eventData.recordings.length)
  let timeSinceActivity : Option Int :=
    eventData.last_stream_activity.map (fun lastActivity => now - lastActivity)
  let recentActivity : Bool :=
    match timeSinceActivity with
    | some d => decide (d < 7200000)
    | none => false
  if isLive then
    Mode.LIVE
  else if isEnded then
    (if hasRecordings then Mode.SEQUENTIAL else Mode.ENDED)
  else if eventData.status == "ready" then
    if !hasRecordings && recentActivity &&
        (match timeSinceActivity with
         | some d => decide (d < 600000)
         | none => false) then
      Mode.PROCESSING
    else if !hasRecordings then
      Mode.WAITING
    else if recentActivity then
      let readyRecordings := eventData.recordings.filter (fun r => r.readyToStream)
      if 1 < readyRecordings.length then Mode.SEQUENTIAL else Mode.LAST_RECORDING
    else
      Mode.SEQUENTIAL
  else if now < scheduledDate then
    Mode.COUNTDOWN
  else
    Mode.WAITING

/-- The null-snapshot guard of `determinePlaybackMode`
(`if (!eventData) return 'WAITING'`, script.js line 79). -/
def determinePlaybackModeOpt (eventData : Option EventSnapshot) (now : Int) : Mode :=
  match eventData with
  | none => Mode.WAITING
  | some e => determinePlaybackMode e now

/-- The viewer-limit gate at the top of `updateUI` (script.js lines 170-180):
`(isLive || hasRecordings) && eventData.limitExceeded` selects the
limit-exceeded screen, otherwise the resolver's mode is rendered.  Note that
`hasRecordings` counts the raw `recordings` array, with no
`readyToStream` filter. -/
def updateUIRenderedMode (eventData : EventSnapshot) (now : Int) : Mode :=
  let hasRecordings := decide (0 < eventData.recordings.length)
  let isLive := eventData.status == "live" && eventData.stream_state == "active"
  if (isLive || hasRecordings) && eventData.limitExceeded then
    Mode.LIMIT_EXCEEDED
  else
    determinePlaybackMode eventData now

/-- Polling cadence chosen by `startPolling` (script.js lines 43-54), in
milliseconds.  The source reads `eventData?.status`/`eventData?.stream_state`
(optional chaining over a possibly-null snapshot) and the current global
`playbackMode` (null before the first render). -/
def pollFrequency (eventData : Option EventSnapshot) (playbackMode : Option Mode) : Nat :=
  let isLive :=
    match eventData with
    | some e => e.status == "live" || e.stream_state == "active"
    | none => false
  let isWaitingForResume := playbackMode = some Mode.LAST_RECORDING
  if isLive then 120000
  else if isWaitingForResume then 30000
  else 60000

/-- Stable insertion of a recording into a list that is ascending by
`created`; equal keys keep the incoming element after existing ones is not
needed here because all concrete inputs have distinct `created` values. -/
def insertByCreatedAsc (a : Recording) : List Recording → List Recording
  | [] => [a]
  | b :: l => if a.created ≤ b.created then a :: b :: l else b :: insertByCreatedAsc a l

/-- The JavaScript `sort((a, b) => new Date(a.created) - new Date(b.created))`
call: ascending by creation time. -/
def sortByCreatedAsc (l : List Recording) : List Recording :=
  l.foldr insertByCreatedAsc []

/-- Stable insertion for the descending (newest-first) sort. -/
def insertByCreatedDesc (a : Recording) : List Recording → List Recording
  | [] => [a]
  | b :: l => if b.created ≤ a.created then a :: b :: l else b :: insertByCreatedDesc a l

/-- The JavaScript `sort((a, b) => new Date(b.created) - new Date(a.created))`
call: descending by creation time. -/
def sortByCreatedDesc (l : List Recording) : List Recording :=
  l.foldr insertByCreatedDesc []

/-- The `allRecordings` list computed on entry to `showSequentialPlayback`
(script.js lines 508-510): filter `readyToStream === true`, then sort
ascending by `created`. -/
def readyAscending (eventData : EventSnapshot) : List Recording :=
  sortByCreatedAsc (eventData.recordings.filter (fun r => r.readyToStream))

/-- JavaScript truthiness of an optional string (`undefined` and the empty
string are falsy). -/
def strTruthy : Option String → Bool
  | some s => !(s == "")
  | none => false

/-- The Cloudflare Stream embed URL built for a video uid (script.js lines
448, 520, 715). -/
def embedUrl (uid : String) : String :=
  "https://customer-r5vkm8rpzqtdt9cz.cloudflarestream.com/" ++ uid ++
    "/iframe?autoplay=true&muted=false"

/-- A runtime error raised by the script. -/
inductive JsError where
  | referenceError (name : String)
deriving Repr, DecidableEq

/-- Modelled from the spec: the watch-page host document (the `index.html`
served next to `script.js`, not present under `src/`) exposes only the DOM
hooks of spec section 6 — title text, banner text and visibility, and the
player `src` — and binds no global variable named `recordings`.  Under that
host, the identifier `recordings` read at script.js line 563 inside
`showSequentialPlayback` is unbound (the local there is `allRecordings`). -/
def hostGlobalRecordings : Option (List Recording) := none

/-- Observable outcome of one `showSequentialPlayback` call
(script.js lines 498-568). -/
structure SeqRender where
  allRecordings : List Recording
  newIndex : Nat
  streamSrc : Option String
  detectionStarted : Bool
  progressBanner : Option String
  fallbackShown : Option Mode
  replayVisible : Bool
deriving Repr, DecidableEq

/-- `showSequentialPlayback` (script.js lines 498-568) as a function of the
snapshot, the persisted global `currentRecordingIndex`, and the current
`replay-stream` iframe `src`.  Effects up to the progress-banner step are
recorded in the `SeqRender`; the banner's template literal reads the unbound
identifier `recordings` (line 563), so with `hostGlobalRecordings = none`
the routine raises a `ReferenceError` before un-hiding the replay element. -/
def showSequentialPlayback (eventData : EventSnapshot) (currentRecordingIndex : Nat)
    (streamSrc0 : Option String) : SeqRender × Option JsError :=
  let allRecordings := readyAscending eventData
  let idx := if allRecordings.length ≤ currentRecordingIndex then 0 else currentRecordingIndex
  let videoId := (allRecordings.get? idx).map Recording.uid
  let loaded :=
    if strTruthy videoId then
      let url := embedUrl (videoId.getD "")
      if streamSrc0 = some url then (streamSrc0, false)
      else (some url, true)
    else (streamSrc0, false)
  let base : SeqRender :=
    { allRecordings := allRecordings, newIndex := idx, streamSrc := loaded.1,
      detectionStarted := loaded.2, progressBanner := none, fallbackShown := none,
      replayVisible := false }
  match hostGlobalRecordings with
  | none => (base, some (JsError.referenceError "recordings"))
  | some rs =>
    let statusText := if eventData.status == "ended" then "Event Replay" else "Event In Progress"
    ({ base with
        progressBanner := some (statusText ++ " - Video " ++ toString (idx + 1) ++
          " of " ++ toString rs.length),
        replayVisible := true }, none)

/-- Observable outcome of one `showLastRecording` call
(script.js lines 423-495). -/
structure LastRender where
  readyNewestFirst : List Recording
  streamSrc : Option String
  fallbackShown : Option Mode
  waitingBanner : Bool
  replayVisible : Bool
deriving Repr, DecidableEq

/-- `showLastRecording` (script.js lines 423-495): newest-first ready list,
most recent ready recording loaded; when no ready recording exists but the
raw array is nonempty the routine calls `showProcessing()` and returns. -/
def showLastRecording (eventData : EventSnapshot) (streamSrc0 : Option String) : LastRender :=
  let recordings :=
    sortByCreatedDesc (eventData.recordings.filter (fun r => r.readyToStream))
  let videoId := (recordings.get? 0).map Recording.uid
  if !(strTruthy videoId) && decide (0 < eventData.recordings.length) then
    { readyNewestFirst := recordings, streamSrc := streamSrc0,
      fallbackShown := some Mode.PROCESSING, waitingBanner := false, replayVisible := false }
  else
    let loadedSrc :=
      if strTruthy videoId then
        let url := embedUrl (videoId.getD "")
        if streamSrc0 = some url then streamSrc0 else some url
      else streamSrc0
    { readyNewestFirst := recordings, streamSrc := loadedSrc,
      fallbackShown := none, waitingBanner := true, replayVisible := true }

/-- Mutable tracking state of one `setupSequentialAdvance` instance
(script.js lines 577-692): `lastKnownTime` / `lastUpdateTimestamp` position
tracking, the `hasAdvanced` latch, and whether the `message` listener and the
1-second check interval are still armed. -/
structure DetectState where
  lastKnownTime : ℚ
  lastUpdateTimestamp : Int
  hasAdvanced : Bool
  listenerActive : Bool
  checkActive : Bool
deriving Repr, DecidableEq

/-- Fresh detection state created by `setupSequentialAdvance`
(script.js lines 594-597, 640, 645): tracking reset, latch cleared, listener
and interval armed. -/
def setupDetect (now : Int) : DetectState :=
  { lastKnownTime := 0, lastUpdateTimestamp := now, hasAdvanced := false,
    listenerActive := true, checkActive := true }

/-- Payload of a Cloudflare Stream `propertyChange` message
(`property` is `currentTime` or `ended`). -/
inductive StreamProp where
  | currentTime (v : ℚ)
  | ended (v : Bool)
  | otherProp
deriving Repr, DecidableEq

/-- One event delivered to the advance machinery: a window `message` (with
its arrival time, whether the origin contains `cloudflarestream.com`, and
whether it carries the `propertyChange` schema), or one firing of the
1-second check interval. -/
inductive PlayerEvent where
  | message (now : Int) (originIsStream : Bool) (isPropertyChange : Bool) (p : StreamProp)
  | tick (now : Int)
deriving Repr, DecidableEq

/-- The advanced variant of a detection state: latch set, listener removed,
interval cleared — every advance path in the source performs exactly these
three effects before calling `advanceToNextRecording`. -/
def advancedState (st : DetectState) : DetectState :=
  { st with hasAdvanced := true, listenerActive := false, checkActive := false }

/-- One step of the detection machinery for the segment whose duration is
`duration`: the `messageHandler` (script.js lines 600-637) and the interval
callback (lines 645-691).  Returns the new state and whether this step fired
an advance.  `timeSinceLastUpdate > 10` seconds and the 120-second fallback
are computed in milliseconds (exact for integer clocks). -/
def detectStep (duration : Option ℚ) (st : DetectState) (e : PlayerEvent) :
    DetectState × Bool :=
  match e with
  | PlayerEvent.message now originIsStream isPropertyChange p =>
    if st.listenerActive && originIsStream && isPropertyChange then
      match p with
      | StreamProp.currentTime v =>
        ({ st with lastKnownTime := v, lastUpdateTimestamp := now }, false)
      | StreamProp.ended true =>
        if st.hasAdvanced then (st, false) else (advancedState st, true)
      | StreamProp.ended false => (st, false)
      | StreamProp.otherProp => (st, false)
    else (st, false)
  | PlayerEvent.tick now =>
    if !st.checkActive then (st, false)
    else if st.hasAdvanced then ({ st with checkActive := false }, false)
    else
      let durTruthy : Bool :=
        match duration with
        | some d => !(d == 0)
        | none => false
      if durTruthy && decide (0 < st.lastKnownTime) then
        let d := duration.getD 0
        let remainingTime := d - st.lastKnownTime
        if remainingTime ≤ 1 then (advancedState st, true)
        else if decide (10000 < now - st.lastUpdateTimestamp) &&
            decide (0 < st.lastKnownTime) then
          if remainingTime < 5 then (advancedState st, true) else (st, false)
        else (st, false)
      else if !durTruthy then
        if decide (120000 < now - st.lastUpdateTimestamp) then (advancedState st, true)
        else (st, false)
      else (st, false)

/-- Run the detection machinery over a list of events, counting advances. -/
def runDetect (duration : Option ℚ) : DetectState × Nat → List PlayerEvent → DetectState × Nat
  | sn, [] => sn
  | (st, n), e :: es =>
    let step := detectStep duration st e
    runDetect duration (step.1, n + (if step.2 then 1 else 0)) es

/-- Player-side state of the sequential session: the global
`currentRecordingIndex`, the `replay-stream` iframe `src`, and whether the
terminal all-complete overlay is shown. -/
structure PlayerState where
  currentRecordingIndex : Nat
  replaySrc : Option String
  allComplete : Bool
deriving Repr, DecidableEq

/-- `advanceToNextRecording` (script.js lines 695-719): increment the cursor;
if it reaches the end of the list show the completion overlay
(`showAllRecordingsComplete`), else load the next recording's embed URL.
No call to `setupSequentialAdvance` occurs here. -/
def advanceToNextRecording (recordings : List Recording) (ps : PlayerState) : PlayerState :=
  let idx := ps.currentRecordingIndex + 1
  if recordings.length ≤ idx then
    { ps with currentRecordingIndex := idx, allComplete := true }
  else
    match (recordings.get? idx).map Recording.uid with
    | some uid =>
      { ps with currentRecordingIndex := idx, replaySrc := some (embedUrl uid) }
    | none => { ps with currentRecordingIndex := idx }

/-- Whole sequential-session state: the player state, the detection state of
the one `setupSequentialAdvance` instance created on entry, and the
`currentRecording.duration` that instance captured in its closures. -/
structure SessionState where
  player : PlayerState
  detect : DetectState
  detectDuration : Option ℚ
deriving Repr, DecidableEq

/-- Session entered by `showSequentialPlayback` at cursor `idx`:
`setupSequentialAdvance(streamEl, recordings)` arms detection for
`recordings[idx]`, capturing that recording's duration. -/
def initSession (recordings : List Recording) (idx : Nat) (now : Int) : SessionState :=
  { player :=
      { currentRecordingIndex := idx,
        replaySrc := ((recordings.get? idx).map Recording.uid).map embedUrl,
        allComplete := false },
    detect := setupDetect now,
    detectDuration := (recordings.get? idx).bind Recording.duration }

/-- One session step: deliver an event to the detection machinery; when it
fires, `advanceToNextRecording` runs.  The detection state is carried over
as-is — the source never re-runs `setupSequentialAdvance` after an advance,
so `detect` and `detectDuration` are not re-armed. -/
def sessionStep (recordings : List Recording) (σ : SessionState) (e : PlayerEvent) :
    SessionState :=
  let step := detectStep σ.detectDuration σ.detect e
  if step.2 then
    { player := advanceToNextRecording recordings σ.player, detect := step.1,
      detectDuration := σ.detectDuration }
  else
    { σ with detect := step.1 }

/-- Run a sequential session over a list of events. -/
def runSession (recordings : List Recording) (σ : SessionState) :
    List PlayerEvent → SessionState
  | [] => σ
  | e :: es => runSession recordings (sessionStep recordings σ e) es

/-- A ready recording created at time 10. -/
def recA : Recording :=
  { uid := "uidA", created := 10, duration := some 10, readyToStream := true }

/-- A ready recording created at time 20. -/
def recB : Recording :=
  { uid := "uidB", created := 20, duration := some 10, readyToStream := true }

/-- A ready recording created at time 30. -/
def recC : Recording :=
  { uid := "uidC", created := 30, duration := some 10, readyToStream := true }

/-- A recording that is not yet ready to stream. -/
def recRaw : Recording :=
  { uid := "uidRaw", created := 15, duration := some 10, readyToStream := false }

/-- Ended event with two ready recordings delivered newest-first. -/
def e1ex : EventSnapshot :=
  { status := "ended", stream_state := "finalized", scheduled_date := 0,
    last_stream_activity := none, recordings := [recB, recA], limitExceeded := false }

/-- Ended event whose only recording is not ready to stream. -/
def e3ex : EventSnapshot :=
  { status := "ended", stream_state := "finalized", scheduled_date := 0,
    last_stream_activity := none, recordings := [recRaw], limitExceeded := false }

/-- Ready event, recent activity, only a not-ready recording, viewer limit
breached. -/
def e4ex : EventSnapshot :=
  { status := "ready", stream_state := "inactive", scheduled_date := 0,
    last_stream_activity := some 940000, recordings := [recRaw], limitExceeded := true }

/-- Ready event with activity 5 minutes ago and only a not-ready recording. -/
def e5ex : EventSnapshot :=
  { status := "ready", stream_state := "disconnected", scheduled_date := 0,
    last_stream_activity := some 700000, recordings := [recRaw], limitExceeded := false }

/-- Ended event with three ready recordings. -/
def e6ex : EventSnapshot :=
  { status := "ended", stream_state := "finalized", scheduled_date := 0,
    last_stream_activity := none, recordings := [recB, recA, recC], limitExceeded := false }

/-- Live-status event whose stream momentarily disconnected. -/
def e9ex : EventSnapshot :=
  { status := "live", stream_state := "disconnected", scheduled_date := 0,
    last_stream_activity := none, recordings := [], limitExceeded := false }

/-- Cancelled event scheduled at time 500. -/
def e10ex : EventSnapshot :=
  { status := "cancelled", stream_state := "inactive", scheduled_date := 500,
    last_stream_activity := none, recordings := [], limitExceeded := false }

/-- Ready event with an empty recordings array and activity 5 minutes ago. -/
def e5empty : EventSnapshot :=
  { status := "ready", stream_state := "disconnected", scheduled_date := 0,
    last_stream_activity := some 700000, recordings := [], limitExceeded := false }

/-- The three ready recordings of `e6ex` in ascending creation order, as
`showSequentialPlayback` passes them to `setupSequentialAdvance`. -/
def recs3 : List Recording := [recA, recB, recC]

/-- Trace for the claim-C2 analysis: segment 1 plays to its end and a tick
advances; afterwards segment 2 reports positions, ticks fire, and even an
explicit ended message arrives. -/
def c2Trace : List PlayerEvent :=
  [PlayerEvent.message 500 true true (StreamProp.currentTime 9),
   PlayerEvent.tick 1000,
   PlayerEvent.message 2000 true true (StreamProp.currentTime 9),
   PlayerEvent.tick 3000,
   PlayerEvent.message 4000 true true (StreamProp.ended true),
   PlayerEvent.tick 5000]

/-- Trace for claim C7: a near-end position report, then a check-interval
tick and an ended message arriving in the same tick of the event loop. -/
def c7Trace : List PlayerEvent :=
  [PlayerEvent.message 500 true true (StreamProp.currentTime 9),
   PlayerEvent.tick 1000,
   PlayerEvent.message 1000 true true (StreamProp.ended true)]

/-- When a detection step fires an advance, the latch was still clear before
the step and the step leaves the torn-down advanced state. -/
lemma detectStep_fired (duration : Option ℚ) (st : DetectState) (e : PlayerEvent)
    (h : (detectStep duration st e).2 = true) :
    st.hasAdvanced = false ∧ (detectStep duration st e).1 = advancedState st := by
  cases e with
  | message now originIsStream isPropertyChange p =>
    cases p with
    | currentTime v =>
      simp only [detectStep] at h ⊢
      split_ifs at h ⊢ <;> simp_all
    | ended v =>
      cases v with
      | false =>
        simp only [detectStep] at h ⊢
        split_ifs at h ⊢ <;> simp_all
      | true =>
        simp only [detectStep] at h ⊢
        split_ifs at h ⊢ <;> simp_all
    | otherProp =>
      simp only [detectStep] at h ⊢
      split_ifs at h ⊢ <;> simp_all
  | tick now =>
    simp only [detectStep] at h ⊢
    split_ifs at h ⊢ <;> simp_all

/-- A detection step that does not fire preserves the `hasAdvanced` latch. -/
lemma detectStep_quiet (duration : Option ℚ) (st : DetectState) (e : PlayerEvent)
    (h : (detectStep duration st e).2 = false) :
    (detectStep duration st e).1.hasAdvanced = st.hasAdvanced := by
  cases e with
  | message now originIsStream isPropertyChange p =>
    cases p with
    | currentTime v =>
      simp only [detectStep] at h ⊢
      split_ifs at h ⊢ <;> simp_all
    | ended v =>
      cases v with
      | false =>
        simp only [detectStep] at h ⊢
        split_ifs at h ⊢ <;> simp_all
      | true =>
        simp only [detectStep] at h ⊢
        split_ifs at h ⊢ <;> simp_all
    | otherProp =>
      simp only [detectStep] at h ⊢
      split_ifs at h ⊢ <;> simp_all
  | tick now =>
    simp only [detectStep] at h ⊢
    split_ifs at h ⊢ <;> simp_all

/-- Invariant run of the detection loop: if at most one advance has been
counted, and none while the latch is clear, that stays true forever. -/
lemma runDetect_le_one (duration : Option ℚ) :
    ∀ (events : List PlayerEvent) (st : DetectState) (n : Nat),
      n ≤ 1 → (st.hasAdvanced = false → n = 0) →
      (runDetect duration (st, n) events).2 ≤ 1 := by
  intro events
  induction events with
  | nil =>
    intro st n h1 _
    simpa [runDetect] using h1
  | cons e es ih =>
    intro st n h1 h2
    simp only [runDetect]
    cases hb : (detectStep duration st e).2 with
    | false =>
      simp only [hb, Bool.false_eq_true, if_false]
      refine ih _ _ h1 ?_
      intro hfa
      exact h2 (by rw [← detectStep_quiet duration st e hb]; exact hfa)
    | true =>
      obtain ⟨hpre, hpost⟩ := detectStep_fired duration st e hb
      have hn0 : n = 0 := h2 hpre
      subst hn0
      simp only [hb, if_true]
      refine ih _ _ le_rfl ?_
      intro hfa
      rw [hpost] at hfa
      simp [advancedState] at hfa

/-- `advanceToNextRecording` always increments the cursor by exactly one. -/
lemma advanceToNextRecording_index (recordings : List Recording) (ps : PlayerState) :
    (advanceToNextRecording recordings ps).currentRecordingIndex =
      ps.currentRecordingIndex + 1 := by
  simp only [advanceToNextRecording]
  split
  · rfl
  · split <;> rfl

/-- Cursor bound for a whole sequential session: detection is armed exactly
once, so from any state satisfying the latch invariant the cursor can grow
by at most one, over every event trace. -/
lemma runSession_cursor_bound (recordings : List Recording) (i₀ : Nat) :
    ∀ (events : List PlayerEvent) (σ : SessionState),
      (σ.detect.hasAdvanced = false → σ.player.currentRecordingIndex = i₀) →
      σ.player.currentRecordingIndex ≤ i₀ + 1 →
      (runSession recordings σ events).player.currentRecordingIndex ≤ i₀ + 1 := by
  intro events
  induction events with
  | nil =>
    intro σ _ h2
    simpa [runSession] using h2
  | cons e es ih =>
    intro σ h1 h2
    simp only [runSession]
    cases hb : (detectStep σ.detectDuration σ.detect e).2 with
    | false =>
      refine ih _ ?_ ?_
      · intro hfa
        simp only [sessionStep, hb, if_false]
        exact h1 (by
          rw [← detectStep_quiet σ.detectDuration σ.detect e hb]
          simpa [sessionStep, hb] using hfa)
      · simpa [sessionStep, hb] using h2
    | true =>
      obtain ⟨hpre, hpost⟩ := detectStep_fired σ.detectDuration σ.detect e hb
      have hcur : σ.player.currentRecordingIndex = i₀ := h1 hpre
      refine ih _ ?_ ?_
      · intro hfa
        simp only [sessionStep, hb, if_true] at hfa
        rw [hpost] at hfa
        simp [advancedState] at hfa
      · simp only [sessionStep, hb, if_true]
        rw [advanceToNextRecording_index, hcur]

/-- C1: on entry into SEQUENTIAL mode the controller does sort the ready
recordings ascending by creation time, load the recording at the cursor and
arm the sequential-advance machinery, but the claim that the rendering
routine displays the progress banner and completes without a runtime error
is false: the banner template at script.js line 563 reads the unbound
identifier `recordings` (the local is `allRecordings`, as the log at line
524 shows was intended), so every sequential render raises a
`ReferenceError` before the banner is filled or the replay container is
un-hidden.  The concrete conjunct enters SEQUENTIAL for an ended event
whose two ready recordings arrive newest-first. -/
theorem c1_sequential_render_raises_reference_error :
    (∀ (e : EventSnapshot) (idx : Nat) (src0 : Option String),
      (showSequentialPlayback e idx src0).2 = some (JsError.referenceError "recordings") ∧
      (showSequentialPlayback e idx src0).1.progressBanner = none ∧
      (showSequentialPlayback e idx src0).1.replayVisible = false) ∧
    determinePlaybackMode e1ex 0 = Mode.SEQUENTIAL ∧
    showSequentialPlayback e1ex 0 none =
      ({ allRecordings := [recA, recB], newIndex := 0,
         streamSrc := some (embedUrl "uidA"), detectionStarted := true,
         progressBanner := none, fallbackShown := none, replayVisible := false },
       some (JsError.referenceError "recordings")) := by
  exact ⟨fun e idx src0 => ⟨rfl, rfl, rfl⟩, by decide, by decide⟩

/-- C2: the advance fires, increments the cursor and loads the next segment,
but end-of-segment detection is never restarted — every advance path removes
the message listener and clears the check interval before calling
`advanceToNextRecording`, which never re-runs `setupSequentialAdvance`.
Hence over a three-segment sequential session the cursor can never exceed 1,
for every event trace; the concrete trace shows segment 1 advancing once and
all later end-of-segment signals (position reports, ticks, even an explicit
ended message) being dropped. -/
theorem c2_detection_never_restarted_after_advance :
    recs3.length = 3 ∧
    (∀ events : List PlayerEvent,
      (runSession recs3 (initSession recs3 0 0) events).player.currentRecordingIndex ≤ 1) ∧
    (runSession recs3 (initSession recs3 0 0) c2Trace).player =
      { currentRecordingIndex := 1, replaySrc := some (embedUrl "uidB"),
        allComplete := false } := by
  refine ⟨rfl, ?_, ?_⟩
  · intro events
    exact runSession_cursor_bound recs3 0 events (initSession recs3 0 0)
      (fun _ => rfl) (Nat.zero_le 1)
  · norm_num [runSession, sessionStep, detectStep, advanceToNextRecording,
      initSession, setupDetect, advancedState, c2Trace, recs3, recA, recB, recC,
      embedUrl]

/-- C7: the `hasAdvanced` latch guarantees at most one advance per armed
segment over every event trace, and in the co-occurrence scenario — a
duration-based near-end check tick and an `ended` message arriving in the
same event-loop tick — the advance fires exactly once. -/
theorem c7_at_most_one_advance_per_segment :
    (∀ (duration : Option ℚ) (startMs : Int) (events : List PlayerEvent),
      (runDetect duration (setupDetect startMs, 0) events).2 ≤ 1) ∧
    (runDetect (some 10) (setupDetect 0, 0) c7Trace).2 = 1 := by
  refine ⟨?_, ?_⟩
  · intro duration startMs events
    exact runDetect_le_one duration events (setupDetect startMs) 0
      (Nat.zero_le 1) (fun _ => rfl)
  · norm_num [runDetect, detectStep, setupDetect, c7Trace, advancedState]

/-- The Mode Resolver itself never yields the limit-exceeded screen: that
mode is selected only by the `updateUI` gate. -/
lemma determinePlaybackMode_ne_limit (e : EventSnapshot) (now : Int) :
    determinePlaybackMode e now ≠ Mode.LIMIT_EXCEEDED := by
  simp only [determinePlaybackMode]
  split_ifs <;> simp

/-- C3 counterexample: an ended event whose only recording is not ready to
stream resolves to SEQUENTIAL, although zero ready recordings exist — the
claim requires ENDED there. -/
theorem c3_counterexample :
    determinePlaybackMode e3ex 0 = Mode.SEQUENTIAL ∧
    (e3ex.recordings.filter (fun r => r.readyToStream)).length = 0 ∧
    Mode.SEQUENTIAL ≠ Mode.ENDED := by
  decide

/-- C3 amended: for `status == ended` the resolver branches on the raw
`recordings` array being nonempty — `readyToStream` is not consulted —
yielding SEQUENTIAL when any recording (ready or not) exists and ENDED only
when the array is empty. -/
theorem c3_ended_counts_raw_recordings (e : EventSnapshot) (now : Int)
    (h : e.status = "ended") :
    determinePlaybackMode e now =
      (if e.recordings.isEmpty then Mode.ENDED else Mode.SEQUENTIAL) := by
  cases hr : e.recordings with
  | nil => simp [determinePlaybackMode, h, hr]
  | cons a l => simp [determinePlaybackMode, h, hr]

/-- C3 witness: the amended statement evaluated on the ended snapshot with a
single not-ready recording. -/
theorem c3_witness :
    determinePlaybackMode e3ex 0 =
      (if e3ex.recordings.isEmpty then Mode.ENDED else Mode.SEQUENTIAL) :=
  c3_ended_counts_raw_recordings e3ex 0 rfl

/-- C4 counterexample: limit exceeded, not live, and no ready recording —
only a not-ready one — yet the rendered mode is LIMIT_EXCEEDED, where the
claim requires the normal mode (here LAST_RECORDING). -/
theorem c4_counterexample :
    updateUIRenderedMode e4ex 1000000 = Mode.LIMIT_EXCEEDED ∧
    (e4ex.recordings.filter (fun r => r.readyToStream)).length = 0 ∧
    (e4ex.status == "live" && e4ex.stream_state == "active") = false ∧
    determinePlaybackMode e4ex 1000000 = Mode.LAST_RECORDING ∧
    Mode.LAST_RECORDING ≠ Mode.LIMIT_EXCEEDED := by
  decide

/-- C4 amended: with `limitExceeded` true the gate pre-empts every mode iff
the event is live-active or the raw `recordings` array is nonempty (ready or
not); otherwise the resolver's mode is rendered unchanged. -/
theorem c4_limit_gate_counts_raw_recordings (e : EventSnapshot) (now : Int)
    (h : e.limitExceeded = true) :
    (updateUIRenderedMode e now = Mode.LIMIT_EXCEEDED ↔
      (e.status = "live" ∧ e.stream_state = "active") ∨ e.recordings ≠ []) ∧
    (¬((e.status = "live" ∧ e.stream_state = "active") ∨ e.recordings ≠ []) →
      updateUIRenderedMode e now = determinePlaybackMode e now) := by
  have hne := determinePlaybackMode_ne_limit e now
  by_cases hb : ((e.status == "live" && e.stream_state == "active") ||
      decide (0 < e.recordings.length)) = true
  · have hcond : (e.status = "live" ∧ e.stream_state = "active") ∨ e.recordings ≠ [] := by
      simpa [List.length_pos] using hb
    have hmode : updateUIRenderedMode e now = Mode.LIMIT_EXCEEDED := by
      simp only [updateUIRenderedMode]
      rw [if_pos]
      simp [hb, h]
    exact ⟨by simp [hmode, hcond], fun hc => absurd hcond hc⟩
  · have hcond : ¬((e.status = "live" ∧ e.stream_state = "active") ∨ e.recordings ≠ []) := by
      simpa [List.length_pos] using hb
    have hb' : ((e.status == "live" && e.stream_state == "active") ||
        decide (0 < e.recordings.length)) = false := by
      simpa using hb
    have hmode : updateUIRenderedMode e now = determinePlaybackMode e now := by
      simp only [updateUIRenderedMode]
      rw [if_neg]
      simp [hb']
    refine ⟨?_, fun _ => hmode⟩
    rw [hmode]
    exact ⟨fun hx => absurd hx hne, fun hc => absurd hc hcond⟩

/-- C4 witness: the amended gate evaluated on the limit-exceeded snapshot
with one not-ready recording. -/
theorem c4_witness : updateUIRenderedMode e4ex 1000000 = Mode.LIMIT_EXCEEDED :=
  (c4_limit_gate_counts_raw_recordings e4ex 1000000 rfl).1.mpr (Or.inr (by decide))

/-- C5 counterexample: `status == ready`, activity five minutes ago, zero
ready recordings — but a not-ready recording is present, and the resolver
yields LAST_RECORDING rather than the PROCESSING the claim requires. -/
theorem c5_counterexample :
    determinePlaybackMode e5ex 1000000 = Mode.LAST_RECORDING ∧
    (e5ex.recordings.filter (fun r => r.readyToStream)).length = 0 ∧
    e5ex.last_stream_activity = some 700000 ∧
    Mode.LAST_RECORDING ≠ Mode.PROCESSING := by
  decide

/-- C5 amended: the PROCESSING/WAITING branch for a ready event requires the
raw `recordings` array to be empty: with an empty array the resolver yields
PROCESSING exactly when activity is within the last 10 minutes and WAITING
otherwise; with a nonempty array containing only not-yet-ready recordings
the branch is skipped and the resolver yields LAST_RECORDING when activity
is within the 2-hour threshold and SEQUENTIAL otherwise (also when no
activity timestamp exists). -/
theorem c5_processing_needs_empty_recordings_array (e : EventSnapshot) (now : Int)
    (hs : e.status = "ready") :
    (e.recordings = [] →
      determinePlaybackMode e now =
        (match e.last_stream_activity with
         | some t => if now - t < 600000 then Mode.PROCESSING else Mode.WAITING
         | none => Mode.WAITING)) ∧
    (e.recordings ≠ [] →
      e.recordings.filter (fun r => r.readyToStream) = [] →
      determinePlaybackMode e now =
        (match e.last_stream_activity with
         | some t => if now - t < 7200000 then Mode.LAST_RECORDING else Mode.SEQUENTIAL
         | none => Mode.SEQUENTIAL)) := by
  constructor
  · intro hr
    cases ha : e.last_stream_activity with
    | none => simp [determinePlaybackMode, hs, hr, ha]
    | some t =>
      by_cases hd : now - t < 600000
      · have h2 : now - t < 7200000 := by omega
        simp [determinePlaybackMode, hs, hr, ha, hd, h2]
      · simp [determinePlaybackMode, hs, hr, ha, hd]
  · intro hne hf
    have hlen : 0 < e.recordings.length := List.length_pos.mpr hne
    cases ha : e.last_stream_activity with
    | none => simp [determinePlaybackMode, hs, ha, hlen]
    | some t =>
      by_cases hd : now - t < 7200000
      · simp [determinePlaybackMode, hs, ha, hd, hlen, hf]
      · simp [determinePlaybackMode, hs, ha, hd, hlen]

/-- C5 witness: the amended statement evaluated concretely on all three
outcomes — empty array within 10 minutes (PROCESSING), only not-ready
recordings with recent activity (LAST_RECORDING), and only not-ready
recordings with stale activity (SEQUENTIAL). -/
theorem c5_witness :
    determinePlaybackMode e5empty 1000000 = Mode.PROCESSING ∧
    determinePlaybackMode e5ex 1000000 = Mode.LAST_RECORDING ∧
    determinePlaybackMode e5ex 10000000 = Mode.SEQUENTIAL := by
  refine ⟨?_, ?_, ?_⟩
  · have h := (c5_processing_needs_empty_recordings_array e5empty 1000000 rfl).1 rfl
    simpa using h
  · have h := (c5_processing_needs_empty_recordings_array e5ex 1000000 rfl).2
      (by decide) (by decide)
    simpa using h
  · have h := (c5_processing_needs_empty_recordings_array e5ex 10000000 rfl).2
      (by decide) (by decide)
    simpa using h

/-- C10: a cancelled event has no dedicated branch in the resolver: it falls
through to the scheduled-event tail, yielding COUNTDOWN before
`scheduled_date` and WAITING from then on. -/
theorem c10_cancelled_has_no_dedicated_branch (e : EventSnapshot) (now : Int)
    (h : e.status = "cancelled") :
    determinePlaybackMode e now =
      (if now < e.scheduled_date then Mode.COUNTDOWN else Mode.WAITING) := by
  simp [determinePlaybackMode, h]

/-- C10 witness: the cancelled snapshot before its scheduled time shows the
countdown. -/
theorem c10_witness : determinePlaybackMode e10ex 100 = Mode.COUNTDOWN := by
  have h := c10_cancelled_has_no_dedicated_branch e10ex 100 rfl
  simpa using h

/-- C6 counterexample: sequential mode entered afresh (previous rendered
mode differed) with a persisted cursor of 1 and three ready recordings —
the cursor is not reset to 0, because the render only resets when the
cursor is out of range. -/
theorem c6_counterexample :
    determinePlaybackMode e6ex 0 = Mode.SEQUENTIAL ∧
    Mode.SEQUENTIAL ≠ Mode.WAITING ∧
    (readyAscending e6ex).length = 3 ∧
    (showSequentialPlayback e6ex 1 none).1.newIndex = 1 ∧
    (1 : Nat) ≠ 0 := by
  decide

/-- C6 amended: the sequential render resets the cursor to 0 exactly when it
is at or beyond the filtered list's length (in particular whenever the ready
set shrinks under it), never merely because the mode was freshly entered;
with a nonempty ready list the resulting cursor is always in range, and an
advance that does not reach the terminal all-complete sub-state also leaves
the cursor strictly below the list length. -/
theorem c6_cursor_reset_only_when_out_of_range :
    (∀ (e : EventSnapshot) (idx : Nat) (src0 : Option String),
      (showSequentialPlayback e idx src0).1.newIndex =
        (if (readyAscending e).length ≤ idx then 0 else idx)) ∧
    (∀ (e : EventSnapshot) (idx : Nat) (src0 : Option String),
      readyAscending e ≠ [] →
      (showSequentialPlayback e idx src0).1.newIndex < (readyAscending e).length) ∧
    (∀ (recordings : List Recording) (ps : PlayerState),
      (advanceToNextRecording recordings ps).allComplete = false →
      (advanceToNextRecording recordings ps).currentRecordingIndex <
        recordings.length) := by
  refine ⟨fun e idx src0 => rfl, ?_, ?_⟩
  · intro e idx src0 hne
    have hlen : 0 < (readyAscending e).length := List.length_pos.mpr hne
    rw [show (showSequentialPlayback e idx src0).1.newIndex =
        (if (readyAscending e).length ≤ idx then 0 else idx) from rfl]
    split
    · exact hlen
    · omega
  · intro recordings ps h
    rw [advanceToNextRecording_index]
    by_cases hc : recordings.length ≤ ps.currentRecordingIndex + 1
    · simp [advanceToNextRecording, hc] at h
    · omega

/-- C6 witness: the in-range bound applied to the three-recording snapshot
at cursor 1. -/
theorem c6_witness :
    (showSequentialPlayback e6ex 1 none).1.newIndex < (readyAscending e6ex).length :=
  c6_cursor_reset_only_when_out_of_range.2.1 e6ex 1 none (by decide)

/-- C8 counterexample: entering SEQUENTIAL for an ended event whose only
recording is not ready gives an empty filtered list, and the sequential
render performs no fallback to WAITING or PROCESSING: it renders no player
and no fallback state (the banner step then raises). -/
theorem c8_counterexample :
    determinePlaybackMode e3ex 0 = Mode.SEQUENTIAL ∧
    readyAscending e3ex = [] ∧
    (showSequentialPlayback e3ex 0 none).1.fallbackShown = none ∧
    (showSequentialPlayback e3ex 0 none).1.streamSrc = none ∧
    (showSequentialPlayback e3ex 0 none).1.replayVisible = false := by
  decide

/-- C8 amended: only `showLastRecording` has the claimed fallback — when no
ready recording exists but the raw array is nonempty it shows the PROCESSING
state; `showSequentialPlayback` never falls back to WAITING or PROCESSING. -/
theorem c8_fallback_only_in_last_recording :
    (∀ (e : EventSnapshot) (src0 : Option String),
      e.recordings.filter (fun r => r.readyToStream) = [] →
      e.recordings ≠ [] →
      (showLastRecording e src0).fallbackShown = some Mode.PROCESSING) ∧
    (∀ (e : EventSnapshot) (idx : Nat) (src0 : Option String),
      (showSequentialPlayback e idx src0).1.fallbackShown = none) := by
  constructor
  · intro e src0 hf hne
    have hlen : 0 < e.recordings.length := List.length_pos.mpr hne
    simp [showLastRecording, hf, sortByCreatedDesc, strTruthy, hlen]
  · intro e idx src0
    rfl

/-- C8 witness: the last-recording fallback evaluated on the snapshot whose
only recording is not ready. -/
theorem c8_witness : (showLastRecording e3ex none).fallbackShown = some Mode.PROCESSING :=
  c8_fallback_only_in_last_recording.1 e3ex none (by decide) (by decide)

/-- C9 counterexample: a snapshot with `status == live` but a disconnected
stream resolves to WAITING, and the claim then requires a 60-second cadence;
the scheduler nevertheless picks 120 seconds, because it keys on the raw
status/stream-state fields rather than on the mode. -/
theorem c9_counterexample :
    determinePlaybackMode e9ex 100 = Mode.WAITING ∧
    pollFrequency (some e9ex) (some Mode.WAITING) = 120000 ∧
    (120000 : Nat) ≠ 60000 := by
  decide

/-- C9 amended: the cadence is 120 s whenever `status == live` OR
`stream_state == active` (independently of the rendered mode), otherwise
30 s when the current mode is LAST_RECORDING, otherwise 60 s. -/
theorem c9_cadence_follows_status_fields (e : EventSnapshot) (m : Option Mode) :
    ((e.status = "live" ∨ e.stream_state = "active") →
      pollFrequency (some e) m = 120000) ∧
    (e.status ≠ "live" → e.stream_state ≠ "active" → m = some Mode.LAST_RECORDING →
      pollFrequency (some e) m = 30000) ∧
    (e.status ≠ "live" → e.stream_state ≠ "active" → m ≠ some Mode.LAST_RECORDING →
      pollFrequency (some e) m = 60000) := by
  refine ⟨?_, ?_, ?_⟩
  · rintro (h | h) <;> simp [pollFrequency, h]
  · intro h1 h2 h3
    simp [pollFrequency, h1, h2, h3]
  · intro h1 h2 h3
    simp [pollFrequency, h1, h2, h3]

/-- C9 witness: the 120-second and 30-second cases evaluated concretely. -/
theorem c9_witness :
    pollFrequency (some e9ex) (some Mode.WAITING) = 120000 ∧
    pollFrequency (some e5empty) (some Mode.LAST_RECORDING) = 30000 := by
  constructor
  · exact (c9_cadence_follows_status_fields e9ex (some Mode.WAITING)).1 (Or.inl rfl)
  · exact (c9_cadence_follows_status_fields e5empty (some Mode.LAST_RECORDING)).2.1
      (by decide) (by decide) rfl

end MomentCast
